import Mathlib

set_option linter.unusedVariables false

/-!
Verification of the QuNetSim QuTip backend facade
(`src/qunetsim/backends/qutip_backend.py`) against its design
specification.  The Python module is embedded shallowly: each method
becomes a Lean function, the process-wide singleton class attributes
become explicit state records, and raised Python exceptions become
error values of an explicit error type.
-/

namespace QuNetSim

/-- Errors raised (or specified to be raised) by the backend layer.
`environmentError` and `exception` model the Python exception classes
actually raised in `qutip_backend.py`; the remaining constructors model
the error taxonomy of the specification (section 7) for the parts of the
system whose concrete code lives outside this module. -/
inductive PyError where
  | environmentError (msg : String)
  | exception (msg : String)
  | duplicateKey (key : String)
  | keyNotFound (key : String)
  | entanglementNotFound
  | alreadyFulfilled
  | invalidGateDimension
  | notUnitary
deriving DecidableEq, Repr

/-- The error every stub method of the abstract facade raises:
`EnvironmentError("This is only an interface, not an actual
implementation!")`.  The specification's error taxonomy calls this
failure mode `NotImplemented` (abstract contract invoked directly). -/
def notImplementedError : PyError :=
  PyError.environmentError "This is only an interface, not an actual implementation!"

/-- The error raised by `Hosts.__init__` / `EntanglementIDs.__init__`
when an instance already exists: `Exception("Call get instance to get
this class!")`.  The specification calls this `SingletonViolation`. -/
def singletonViolationError : PyError :=
  PyError.exception "Call get instance to get this class!"

/-- A qubit handle.  The backend treats qubits as opaque handles. -/
abbrev Qubit := Nat

/-- A host, identified by its host id (`host.host_id` in the source). -/
structure Host where
  host_id : String
deriving DecidableEq, Repr

/-- Complex numbers with rational components, used for gate matrices and
state vectors (the math-engine numerics restricted to exact entries). -/
structure CRat where
  re : Rat
  im : Rat
deriving DecidableEq, Repr

def CRat.zero : CRat := ⟨0, 0⟩

def CRat.one : CRat := ⟨1, 0⟩

def CRat.add (x y : CRat) : CRat := ⟨x.re + y.re, x.im + y.im⟩

def CRat.mul (x y : CRat) : CRat :=
  ⟨x.re * y.re - x.im * y.im, x.re * y.im + x.im * y.re⟩

def CRat.conj (x : CRat) : CRat := ⟨x.re, -x.im⟩

/-- A gate matrix, row major; dimensions are part of the data so that
wrong-dimension inputs are representable. -/
abbrev Mat := List (List CRat)

/-- A single-qubit state vector (amplitudes of the basis states 0, 1). -/
abbrev Vec2 := CRat × CRat

/-- Status of an entanglement record (specification section 4.3). -/
inductive EprStatus where
  | pending
  | fulfilled
deriving DecidableEq, Repr

/-- An entanglement record (specification section 3): entanglement id,
the host pair, and the pending/fulfilled status. -/
structure EntanglementRecord where
  q_id : String
  host_a : String
  host_b : String
  status : EprStatus
deriving DecidableEq, Repr

/-- The backend-visible mutable state: the host registry, the
entanglement registry, and the per-qubit quantum states. -/
structure FullState where
  hosts : List (String × Host)
  entanglements : List EntanglementRecord
  qubits : List (Nat × Vec2)
deriving DecidableEq, Repr

namespace QuTipBackend

/-- `QuTipBackend.start(**kwargs)`: the body is `pass`, so it returns
`None` and touches no state. -/
def start (config : List (String × String)) (s : FullState) : Unit × FullState :=
  ((), s)

/-- `QuTipBackend.stop()`: the body is `pass`, so it returns `None` and
touches no state. -/
def stop (s : FullState) : Unit × FullState :=
  ((), s)

/-- `QuTipBackend.create_qubit(host_id)`: raises the interface-stub
`EnvironmentError` unconditionally. -/
def create_qubit (host_id : String) : Except PyError Qubit :=
  .error notImplementedError

/-- `QuTipBackend.send_qubit_to(qubit, from_host_id, to_host_id)`:
raises the interface-stub `EnvironmentError` unconditionally. -/
def send_qubit_to (qubit : Qubit) (from_host_id to_host_id : String) :
    Except PyError Unit :=
  .error notImplementedError

/-- `QuTipBackend.create_EPR(host_a_id, host_b_id, q_id, block)`: raises
the interface-stub `EnvironmentError` unconditionally. -/
def create_EPR (host_a_id host_b_id : String) (q_id : Option String)
    (block : Bool) : Except PyError Qubit :=
  .error notImplementedError

/-- `QuTipBackend.receive_epr(host_id, sender_id, q_id, block)`: raises
the interface-stub `EnvironmentError` unconditionally. -/
def receive_epr (host_id sender_id : String) (q_id : Option String)
    (block : Bool) : Except PyError Qubit :=
  .error notImplementedError

/-- `QuTipBackend.I(qubit)`: raises the interface-stub error. -/
def I (qubit : Qubit) : Except PyError Unit :=
  .error notImplementedError

/-- `QuTipBackend.X(qubit)`: raises the interface-stub error. -/
def X (qubit : Qubit) : Except PyError Unit :=
  .error notImplementedError

/-- `QuTipBackend.Y(qubit)`: raises the interface-stub error. -/
def Y (qubit : Qubit) : Except PyError Unit :=
  .error notImplementedError

/-- `QuTipBackend.Z(qubit)`: raises the interface-stub error. -/
def Z (qubit : Qubit) : Except PyError Unit :=
  .error notImplementedError

/-- `QuTipBackend.H(qubit)`: raises the interface-stub error. -/
def H (qubit : Qubit) : Except PyError Unit :=
  .error notImplementedError

/-- `QuTipBackend.T(qubit)`: raises the interface-stub error. -/
def T (qubit : Qubit) : Except PyError Unit :=
  .error notImplementedError

/-- `QuTipBackend.rx(qubit, phi)`: raises the interface-stub error. -/
def rx (qubit : Qubit) (phi : Rat) : Except PyError Unit :=
  .error notImplementedError

/-- `QuTipBackend.ry(qubit, phi)`: raises the interface-stub error. -/
def ry (qubit : Qubit) (phi : Rat) : Except PyError Unit :=
  .error notImplementedError

/-- `QuTipBackend.rz(phi)`: raises the interface-stub error.  Note the
source signature is `def rz(self, phi)` — unlike `rx`/`ry` it has no
`qubit` parameter, although its own docstring documents one. -/
def rz (phi : Rat) : Except PyError Unit :=
  .error notImplementedError

/-- `QuTipBackend.cnot(qubit, target)`: raises the interface-stub error. -/
def cnot (qubit target : Qubit) : Except PyError Unit :=
  .error notImplementedError

/-- `QuTipBackend.cphase(qubit, target)`: raises the interface-stub error. -/
def cphase (qubit target : Qubit) : Except PyError Unit :=
  .error notImplementedError

/-- `QuTipBackend.custom_gate(qubit, gate)`: raises the interface-stub
error. -/
def custom_gate (qubit : Qubit) (gate : Mat) : Except PyError Unit :=
  .error notImplementedError

/-- `QuTipBackend.custom_controlled_gate(qubit, target, gate)`: raises
the interface-stub error. -/
def custom_controlled_gate (qubit target : Qubit) (gate : Mat) :
    Except PyError Unit :=
  .error notImplementedError

/-- `QuTipBackend.custom_controlled_two_qubit_gate(qubit, target_1,
target_2, gate)`: raises the interface-stub error. -/
def custom_controlled_two_qubit_gate (qubit target_1 target_2 : Qubit)
    (gate : Mat) : Except PyError Unit :=
  .error notImplementedError

/-- `QuTipBackend.custom_two_qubit_gate(qubit1, qubit2, gate)`: raises
the interface-stub error. -/
def custom_two_qubit_gate (qubit1 qubit2 : Qubit) (gate : Mat) :
    Except PyError Unit :=
  .error notImplementedError

/-- `QuTipBackend.density_operator(qubit)`: raises the interface-stub
error. -/
def density_operator (qubit : Qubit) : Except PyError Mat :=
  .error notImplementedError

/-- `QuTipBackend.measure(qubit, non_destructive)`: raises the
interface-stub error. -/
def measure (qubit : Qubit) (non_destructive : Bool) : Except PyError Nat :=
  .error notImplementedError

/-- `QuTipBackend.release(qubit)`: raises the interface-stub error. -/
def release (qubit : Qubit) : Except PyError Unit :=
  .error notImplementedError

/-- Source parameter lists (excluding `self`) of the three rotation
methods, exactly as declared in `qutip_backend.py`:
`def rx(self, qubit, phi)`. -/
def rx_params : List String := ["qubit", "phi"]

/-- Source parameter list of `def ry(self, qubit, phi)`. -/
def ry_params : List String := ["qubit", "phi"]

/-- Source parameter list of `def rz(self, phi)` — the `qubit`
parameter is absent from the signature, though the docstring lists it. -/
def rz_params : List String := ["phi"]

/-- Python positional-call binding for these signatures (no defaults,
no varargs): a call with `n` positional arguments binds successfully
iff `n` equals the number of declared parameters; otherwise the call
raises `TypeError` before the body runs. -/
def bindsCall (params : List String) (n : Nat) : Bool :=
  params.length == n

end QuTipBackend

/-- The class-level singleton state of `Hosts` or `EntanglementIDs`:
the private `__instance` class attribute (instances are identified by
numeric ids), a supply of fresh ids, and a count of how many instances
have been constructed so far. -/
structure SingletonClassState where
  inst : Option Nat
  nextId : Nat
  constructed : Nat
deriving DecidableEq, Repr

/-- The class state at process start: `__instance = None`, nothing
constructed yet. -/
def SingletonClassState.fresh : SingletonClassState := ⟨none, 0, 0⟩

namespace Hosts

/-- `Hosts.__init__`: if `__instance` is not `None`, raise
`Exception("Call get instance to get this class!")`; otherwise set
`__instance = self` (and run the `SafeDict` constructor). -/
def construct (s : SingletonClassState) :
    Except PyError (Nat × SingletonClassState) :=
  match s.inst with
  | some _ => .error singletonViolationError
  | none => .ok (s.nextId, ⟨some s.nextId, s.nextId + 1, s.constructed + 1⟩)

/-- `Hosts.get_instance()`: return `__instance` when set, otherwise
construct `Hosts()` (which succeeds, since `__instance` is `None` on
that branch, and sets `__instance` to the new object). -/
def get_instance (s : SingletonClassState) : Nat × SingletonClassState :=
  match s.inst with
  | some i => (i, s)
  | none => (s.nextId, ⟨some s.nextId, s.nextId + 1, s.constructed + 1⟩)

/-- Iterates `get_instance` `n` times, keeping only the class state. -/
def runGets : Nat → SingletonClassState → SingletonClassState
  | 0, s => s
  | n + 1, s => runGets n (get_instance s).2

end Hosts

namespace EntanglementIDs

/-- `EntanglementIDs.__init__`: if `__instance` is not `None`, raise
`Exception("Call get instance to get this class!")`; otherwise set
`__instance = self` (and run the `SafeDict` constructor). -/
def construct (s : SingletonClassState) :
    Except PyError (Nat × SingletonClassState) :=
  match s.inst with
  | some _ => .error singletonViolationError
  | none => .ok (s.nextId, ⟨some s.nextId, s.nextId + 1, s.constructed + 1⟩)

/-- `EntanglementIDs.get_instance()`: return `__instance` when set,
otherwise construct `EntanglementIDs()` (which sets `__instance`). -/
def get_instance (s : SingletonClassState) : Nat × SingletonClassState :=
  match s.inst with
  | some i => (i, s)
  | none => (s.nextId, ⟨some s.nextId, s.nextId + 1, s.constructed + 1⟩)

/-- Iterates `get_instance` `n` times, keeping only the class state. -/
def runGets : Nat → SingletonClassState → SingletonClassState
  | 0, s => s
  | n + 1, s => runGets n (get_instance s).2

end EntanglementIDs

/-- The process-wide class state of both singleton classes. -/
structure GlobalState where
  hostsClass : SingletonClassState
  entClass : SingletonClassState
deriving DecidableEq, Repr

/-- A `QuTipBackend` object: its `_hosts` and `_entaglement_qubits`
instance attributes, each holding (a reference to) a singleton
instance. -/
structure Backend where
  hostsRef : Nat
  entaglementQubitsRef : Nat
deriving DecidableEq, Repr

namespace QuTipBackend

/-- `QuTipBackend.__init__`: `self._hosts =
QuTipBackend.Hosts.get_instance()` and `self._entaglement_qubits =
QuTipBackend.EntanglementIDs.get_instance()`. -/
def construct (g : GlobalState) : Backend × GlobalState :=
  let hr := Hosts.get_instance g.hostsClass
  let er := EntanglementIDs.get_instance g.entClass
  (⟨hr.1, er.1⟩, ⟨hr.2, er.2⟩)

end QuTipBackend

namespace QubitCollection

/-- `QubitCollection.__init__` calls `super().__init__([1, 0])`: the
collection is the `qutip.Qobj` holding the state vector `[1, 0]`. -/
def construct : List Rat := [1, 0]

/-- `QubitCollection.add_qubit(qubit)`: the body is `pass`. -/
def add_qubit (c : List Rat) (qubit : Qubit) : List Rat := c

end QubitCollection

namespace SafeDict

/-- Modelled from the spec: `SafeDict` is imported from
`qunetsim.backends.safe_dict`, which is not present under `src/`.
Specification section 4.1 (SharedRegistry): `add(key, value)` inserts
under exclusive access, overwriting forbidden — fails with
`DuplicateKey` if the key exists. -/
def add_to_dict (d : List (String × Host)) (k : String) (v : Host) :
    Except PyError (List (String × Host)) :=
  if (d.find? (fun p => p.1 == k)).isSome then .error (PyError.duplicateKey k)
  else .ok ((k, v) :: d)

/-- Modelled from the spec: `SafeDict` lookup, from specification
section 4.1: `get(key)` returns the value or fails with `KeyNotFound`. -/
def get_from_dict (d : List (String × Host)) (k : String) :
    Except PyError Host :=
  match d.find? (fun p => p.1 == k) with
  | some p => .ok p.2
  | none => .error (PyError.keyNotFound k)

end SafeDict

namespace QuTipBackend

/-- `QuTipBackend.add_host(host)`:
`self._hosts.add_to_dict(host.host_id, host)`, over the contents of the
`Hosts` registry (the `SafeDict` insert itself is modelled from the
spec, see `SafeDict.add_to_dict`). -/
def add_host (d : List (String × Host)) (host : Host) :
    Except PyError (List (String × Host)) :=
  SafeDict.add_to_dict d host.host_id host

end QuTipBackend

namespace EntanglementProtocol

/-- Outcome of a `receive_epr` call in the sequential model:
a qubit together with the updated registry, a suspension (the
`block=True` wait, which has no return value until another thread
acts), or a raised error. -/
inductive ReceiveResult where
  | got (qubit : Qubit) (reg : List EntanglementRecord)
  | suspended
  | failed (e : PyError)
deriving DecidableEq, Repr

/-- Whether a record matches a `receive_epr(host_id, sender_id, q_id)`
lookup: same entanglement id, created for the pair
`(sender_id, host_id)`. -/
def matchesLookup (host_id sender_id q_id : String)
    (r : EntanglementRecord) : Bool :=
  r.q_id == q_id && r.host_a == sender_id && r.host_b == host_id

/-- Marks the record with the given id fulfilled. -/
def markFulfilled (reg : List EntanglementRecord) (q_id : String) :
    List EntanglementRecord :=
  reg.map fun r => if r.q_id == q_id then { r with status := .fulfilled } else r

/-- Modelled from the spec: the concrete `receive_epr` of the
EntanglementProtocol (specification section 4.3); the concrete backend
implementing it is not present under `src/` (only the abstract facade
stub is).  Looks up the record for `(sender_id, host_id)` by `q_id`;
if found and `Pending`, allocates the local qubit and marks the record
`Fulfilled`; if found and already `Fulfilled`, fails with
`AlreadyFulfilled`; if not found, suspends when `block=True` and fails
with `EntanglementNotFound` when `block=False`.  `fresh` is the handle
the qubit allocator would hand out. -/
def receive_epr (reg : List EntanglementRecord)
    (host_id sender_id q_id : String) (block : Bool) (fresh : Qubit) :
    ReceiveResult :=
  match reg.find? (matchesLookup host_id sender_id q_id) with
  | some r =>
    match r.status with
    | .pending => .got fresh (markFulfilled reg r.q_id)
    | .fulfilled => .failed PyError.alreadyFulfilled
  | none =>
    if block then .suspended else .failed PyError.entanglementNotFound

end EntanglementProtocol

namespace GateContract

/-- Matrix entry access, row major (out of range reads 0; validation
rejects wrong-dimension input before any entry is used). -/
def entry (g : Mat) (i j : Nat) : CRat :=
  (g.getD i []).getD j CRat.zero

/-- Whether a matrix is 2×2. -/
def is2x2 (g : Mat) : Bool :=
  g.length == 2 && g.all fun row => row.length == 2

/-- Hermitian inner product of rows `i` and `j` of a 2×2 matrix. -/
def rowDot (g : Mat) (i j : Nat) : CRat :=
  ((entry g i 0).mul (entry g j 0).conj).add
    ((entry g i 1).mul (entry g j 1).conj)

/-- Whether a 2×2 matrix is unitary: `g * gᴴ = 1`. -/
def isUnitary2x2 (g : Mat) : Bool :=
  rowDot g 0 0 == CRat.one && rowDot g 0 1 == CRat.zero &&
    rowDot g 1 0 == CRat.zero && rowDot g 1 1 == CRat.one

/-- Applies a 2×2 matrix to a single-qubit state vector. -/
def applyMat (g : Mat) (v : Vec2) : Vec2 :=
  (((entry g 0 0).mul v.1).add ((entry g 0 1).mul v.2),
    ((entry g 1 0).mul v.1).add ((entry g 1 1).mul v.2))

/-- Modelled from the spec: the concrete `custom_gate` of the
GateContract (specification sections 4.4 and 7); the concrete backend
implementing it is not present under `src/` (only the abstract facade
stub is).  Validate-then-apply ordering: a non-2×2 gate fails with
`InvalidGateDimension`, a non-unitary gate with `NotUnitary`, both
before any state mutation; a valid gate is applied to the qubit's
state vector.  Returns the post-call qubit-state table together with
the raised error, if any. -/
def custom_gate (st : List (Qubit × Vec2)) (q : Qubit) (gate : Mat) :
    List (Qubit × Vec2) × Option PyError :=
  if is2x2 gate = false then (st, some PyError.invalidGateDimension)
  else if isUnitary2x2 gate = false then (st, some PyError.notUnitary)
  else (st.map (fun p => if p.1 == q then (p.1, applyMat gate p.2) else p), none)

end GateContract

/-! Helper lemmas about the singleton class state machines. -/

theorem hosts_get_some (s : SingletonClassState) (i : Nat)
    (h : s.inst = some i) : Hosts.get_instance s = (i, s) := by
  simp [Hosts.get_instance, h]

theorem hosts_get_post (s : SingletonClassState) :
    ((Hosts.get_instance s).2).inst = some (Hosts.get_instance s).1 := by
  cases h : s.inst <;> simp [Hosts.get_instance, h]

theorem hosts_get_fix (s : SingletonClassState) :
    Hosts.get_instance (Hosts.get_instance s).2
      = ((Hosts.get_instance s).1, (Hosts.get_instance s).2) :=
  hosts_get_some _ _ (hosts_get_post s)

theorem hosts_runGets_of_some (n : Nat) (s : SingletonClassState) (i : Nat)
    (h : s.inst = some i) : Hosts.runGets n s = s := by
  induction n with
  | zero => rfl
  | succ n ih =>
    show Hosts.runGets n (Hosts.get_instance s).2 = s
    rw [hosts_get_some s i h]
    exact ih

theorem ent_get_some (s : SingletonClassState) (i : Nat)
    (h : s.inst = some i) : EntanglementIDs.get_instance s = (i, s) := by
  simp [EntanglementIDs.get_instance, h]

theorem ent_get_post (s : SingletonClassState) :
    ((EntanglementIDs.get_instance s).2).inst
      = some (EntanglementIDs.get_instance s).1 := by
  cases h : s.inst <;> simp [EntanglementIDs.get_instance, h]

theorem ent_get_fix (s : SingletonClassState) :
    EntanglementIDs.get_instance (EntanglementIDs.get_instance s).2
      = ((EntanglementIDs.get_instance s).1, (EntanglementIDs.get_instance s).2) :=
  ent_get_some _ _ (ent_get_post s)

theorem ent_runGets_of_some (n : Nat) (s : SingletonClassState) (i : Nat)
    (h : s.inst = some i) : EntanglementIDs.runGets n s = s := by
  induction n with
  | zero => rfl
  | succ n ih =>
    show EntanglementIDs.runGets n (EntanglementIDs.get_instance s).2 = s
    rw [ent_get_some s i h]
    exact ih

/-! The claims. -/

/-- C1: every gate, entanglement, qubit-lifecycle, or measurement
operation of the abstract backend facade, called without a concrete math
engine attached, fails for all argument values with the interface-stub
error (the specification's `NotImplemented` failure mode). -/
theorem c1_abstract_facade_raises_not_implemented :
    (∀ host_id, QuTipBackend.create_qubit host_id = .error notImplementedError) ∧
    (∀ q from_id to_id, QuTipBackend.send_qubit_to q from_id to_id = .error notImplementedError) ∧
    (∀ a b i bl, QuTipBackend.create_EPR a b i bl = .error notImplementedError) ∧
    (∀ h s i bl, QuTipBackend.receive_epr h s i bl = .error notImplementedError) ∧
    (∀ q, QuTipBackend.I q = .error notImplementedError) ∧
    (∀ q, QuTipBackend.X q = .error notImplementedError) ∧
    (∀ q, QuTipBackend.Y q = .error notImplementedError) ∧
    (∀ q, QuTipBackend.Z q = .error notImplementedError) ∧
    (∀ q, QuTipBackend.H q = .error notImplementedError) ∧
    (∀ q, QuTipBackend.T q = .error notImplementedError) ∧
    (∀ q phi, QuTipBackend.rx q phi = .error notImplementedError) ∧
    (∀ q phi, QuTipBackend.ry q phi = .error notImplementedError) ∧
    (∀ phi, QuTipBackend.rz phi = .error notImplementedError) ∧
    (∀ q t, QuTipBackend.cnot q t = .error notImplementedError) ∧
    (∀ q t, QuTipBackend.cphase q t = .error notImplementedError) ∧
    (∀ q g, QuTipBackend.custom_gate q g = .error notImplementedError) ∧
    (∀ q t g, QuTipBackend.custom_controlled_gate q t g = .error notImplementedError) ∧
    (∀ q t1 t2 g, QuTipBackend.custom_controlled_two_qubit_gate q t1 t2 g = .error notImplementedError) ∧
    (∀ q1 q2 g, QuTipBackend.custom_two_qubit_gate q1 q2 g = .error notImplementedError) ∧
    (∀ q, QuTipBackend.density_operator q = .error notImplementedError) ∧
    (∀ q nd, QuTipBackend.measure q nd = .error notImplementedError) ∧
    (∀ q, QuTipBackend.release q = .error notImplementedError) :=
  ⟨fun _ => rfl, fun _ _ _ => rfl, fun _ _ _ _ => rfl, fun _ _ _ _ => rfl,
    fun _ => rfl, fun _ => rfl, fun _ => rfl, fun _ => rfl, fun _ => rfl,
    fun _ => rfl, fun _ _ => rfl, fun _ _ => rfl, fun _ => rfl,
    fun _ _ => rfl, fun _ _ => rfl, fun _ _ => rfl, fun _ _ _ => rfl,
    fun _ _ _ _ => rfl, fun _ _ _ => rfl, fun _ => rfl, fun _ _ => rfl,
    fun _ => rfl⟩

/-- C2: directly constructing `Hosts` or `EntanglementIDs` while a live
instance exists fails with the `SingletonViolation` error (the raised
`Exception("Call get instance to get this class!")`), rather than
silently succeeding or being a no-op. -/
theorem c2_double_construction_raises_singleton_violation
    (s t : SingletonClassState)
    (hs : s.inst.isSome = true) (ht : t.inst.isSome = true) :
    Hosts.construct s = .error singletonViolationError ∧
    EntanglementIDs.construct t = .error singletonViolationError := by
  obtain ⟨i, hi⟩ := Option.isSome_iff_exists.mp hs
  obtain ⟨j, hj⟩ := Option.isSome_iff_exists.mp ht
  exact ⟨by simp [Hosts.construct, hi], by simp [EntanglementIDs.construct, hj]⟩

/-- Witness for C2 at the concrete class state holding instance 0. -/
theorem c2_witness :
    (SingletonClassState.mk (some 0) 1 1).inst.isSome = true ∧
    (Hosts.construct ⟨some 0, 1, 1⟩ = .error singletonViolationError ∧
      EntanglementIDs.construct ⟨some 0, 1, 1⟩ = .error singletonViolationError) :=
  ⟨rfl, c2_double_construction_raises_singleton_violation
    ⟨some 0, 1, 1⟩ ⟨some 0, 1, 1⟩ rfl rfl⟩

/-- C3: for each registry class, `get_instance` returns the single live
instance or lazily constructs it exactly once: any later `get_instance`
call (after arbitrarily many intervening ones) returns the same
instance as the first, and over any sequence of `get_instance` calls
from the fresh class state at most one instance is ever constructed. -/
theorem c3_get_instance_lazy_unique :
    (∀ (s : SingletonClassState) (n : Nat),
      (Hosts.get_instance (Hosts.runGets n (Hosts.get_instance s).2)).1
        = (Hosts.get_instance s).1) ∧
    (∀ n : Nat, (Hosts.runGets n SingletonClassState.fresh).constructed ≤ 1) ∧
    (∀ (s : SingletonClassState) (n : Nat),
      (EntanglementIDs.get_instance
          (EntanglementIDs.runGets n (EntanglementIDs.get_instance s).2)).1
        = (EntanglementIDs.get_instance s).1) ∧
    (∀ n : Nat, (EntanglementIDs.runGets n SingletonClassState.fresh).constructed ≤ 1) := by
  refine ⟨fun s n => ?_, fun n => ?_, fun s n => ?_, fun n => ?_⟩
  · rw [hosts_runGets_of_some n _ _ (hosts_get_post s),
      hosts_get_some _ _ (hosts_get_post s)]
  · cases n with
    | zero => exact Nat.zero_le 1
    | succ n =>
      show (Hosts.runGets n (Hosts.get_instance SingletonClassState.fresh).2).constructed ≤ 1
      rw [hosts_runGets_of_some n _ _ (hosts_get_post SingletonClassState.fresh)]
      decide
  · rw [ent_runGets_of_some n _ _ (ent_get_post s),
      ent_get_some _ _ (ent_get_post s)]
  · cases n with
    | zero => exact Nat.zero_le 1
    | succ n =>
      show (EntanglementIDs.runGets n (EntanglementIDs.get_instance SingletonClassState.fresh).2).constructed ≤ 1
      rw [ent_runGets_of_some n _ _ (ent_get_post SingletonClassState.fresh)]
      decide

/-- C4: for every host id, sender id, and entanglement id for which no
matching entanglement record exists, `receive_epr` with `block=False`
fails with `EntanglementNotFound`. -/
theorem c4_receive_epr_nonblocking_not_found
    (reg : List EntanglementRecord) (host_id sender_id q_id : String)
    (fresh : Qubit)
    (hnone : ∀ r ∈ reg,
      EntanglementProtocol.matchesLookup host_id sender_id q_id r = false) :
    EntanglementProtocol.receive_epr reg host_id sender_id q_id false fresh
      = .failed PyError.entanglementNotFound := by
  have hfind : reg.find?
      (EntanglementProtocol.matchesLookup host_id sender_id q_id) = none := by
    rw [List.find?_eq_none]
    intro x hx
    simp [hnone x hx]
  simp [EntanglementProtocol.receive_epr, hfind]

/-- Witness for C4 on the empty registry. -/
theorem c4_witness :
    (∀ r ∈ ([] : List EntanglementRecord),
      EntanglementProtocol.matchesLookup "Bob" "Alice" "e1" r = false) ∧
    EntanglementProtocol.receive_epr [] "Bob" "Alice" "e1" false 7
      = .failed PyError.entanglementNotFound := by
  have h : ∀ r ∈ ([] : List EntanglementRecord),
      EntanglementProtocol.matchesLookup "Bob" "Alice" "e1" r = false := by
    simp
  exact ⟨h, c4_receive_epr_nonblocking_not_found [] "Bob" "Alice" "e1" 7 h⟩

/-- C5: `custom_gate` called with a matrix that is not 2×2 or is not
unitary fails with `InvalidGateDimension` or `NotUnitary`, and the
qubit-state table is unchanged by the failed call (validation happens
before any mutation). -/
theorem c5_custom_gate_rejects_invalid_without_mutation
    (st : List (Qubit × Vec2)) (q : Qubit) (gate : Mat)
    (hbad : GateContract.is2x2 gate = false ∨
      GateContract.isUnitary2x2 gate = false) :
    (GateContract.custom_gate st q gate).1 = st ∧
    ((GateContract.custom_gate st q gate).2 = some PyError.invalidGateDimension ∨
      (GateContract.custom_gate st q gate).2 = some PyError.notUnitary) := by
  unfold GateContract.custom_gate
  rcases hbad with h | h
  · simp [h]
  · by_cases h2 : GateContract.is2x2 gate = false
    · simp [h2]
    · simp [h2, h]

/-- Witness for C5 at the 1×1 matrix `[[1]]` (wrong dimension),
applied to a one-qubit table in state 1·0. -/
theorem c5_witness :
    (GateContract.is2x2 [[CRat.one]] = false ∨
      GateContract.isUnitary2x2 [[CRat.one]] = false) ∧
    ((GateContract.custom_gate [(0, (CRat.one, CRat.zero))] 0 [[CRat.one]]).1
      = [(0, (CRat.one, CRat.zero))] ∧
    ((GateContract.custom_gate [(0, (CRat.one, CRat.zero))] 0 [[CRat.one]]).2
        = some PyError.invalidGateDimension ∨
      (GateContract.custom_gate [(0, (CRat.one, CRat.zero))] 0 [[CRat.one]]).2
        = some PyError.notUnitary)) := by
  have hbad : GateContract.is2x2 [[CRat.one]] = false ∨
      GateContract.isUnitary2x2 [[CRat.one]] = false :=
    Or.inl (by simp [GateContract.is2x2])
  exact ⟨hbad, c5_custom_gate_rejects_invalid_without_mutation
    [(0, (CRat.one, CRat.zero))] 0 _ hbad⟩

/-- C6: the claim says `rz` can be invoked as `rz(qubit, phi)` just
like `rx` and `ry`; in the source `rz` is declared `def rz(self, phi)`,
so a two-argument call does not bind (it raises `TypeError`), while
`rx` and `ry` do accept two arguments.  The `rz` docstring itself lists
a `qubit` parameter, so the signature contradicts the method's own
documentation. -/
theorem c6_rz_signature_missing_qubit_parameter :
    QuTipBackend.bindsCall QuTipBackend.rx_params 2 = true ∧
    QuTipBackend.bindsCall QuTipBackend.ry_params 2 = true ∧
    QuTipBackend.bindsCall QuTipBackend.rz_params 2 = false ∧
    QuTipBackend.rz_params = ["phi"] :=
  ⟨rfl, rfl, rfl, rfl⟩

/-- C7: `add_host(h)` registers `h` in the host registry under
`h.host_id`: afterwards looking up `h.host_id` yields `h`; registering
a host with the same id a second time fails with `DuplicateKey`
(registered exactly once), and registering further hosts with other
ids never removes the entry. -/
theorem c7_add_host_registers_exactly_once
    (d : List (String × Host)) (h : Host)
    (hfresh : d.find? (fun p => p.1 == h.host_id) = none) :
    ∃ d', QuTipBackend.add_host d h = .ok d' ∧
      SafeDict.get_from_dict d' h.host_id = .ok h ∧
      (∀ h2 : Host, h2.host_id = h.host_id →
        QuTipBackend.add_host d' h2 = .error (PyError.duplicateKey h.host_id)) ∧
      (∀ h2 : Host, h2.host_id ≠ h.host_id → ∀ d'',
        QuTipBackend.add_host d' h2 = .ok d'' →
        SafeDict.get_from_dict d'' h.host_id = .ok h) := by
  refine ⟨(h.host_id, h) :: d, ?_, ?_, ?_, ?_⟩
  · simp [QuTipBackend.add_host, SafeDict.add_to_dict, hfresh]
  · simp [SafeDict.get_from_dict, List.find?]
  · intro h2 hid
    simp [QuTipBackend.add_host, SafeDict.add_to_dict, hid, List.find?]
  · intro h2 hne d'' hok
    have hbeq : (h2.host_id == h.host_id) = false := beq_eq_false_iff_ne.mpr hne
    by_cases hc : ((((h.host_id, h) :: d).find?
        (fun p => p.1 == h2.host_id)).isSome = true)
    · simp [QuTipBackend.add_host, SafeDict.add_to_dict, hc] at hok
    · simp [QuTipBackend.add_host, SafeDict.add_to_dict, hc] at hok
      subst hok
      simp [SafeDict.get_from_dict, List.find?, hbeq]

/-- Witness for C7: registering the host "alice" in the empty registry. -/
theorem c7_witness :
    (([] : List (String × Host)).find?
      (fun p => p.1 == (Host.mk "alice").host_id) = none) ∧
    (∃ d', QuTipBackend.add_host [] (Host.mk "alice") = .ok d' ∧
      SafeDict.get_from_dict d' (Host.mk "alice").host_id = .ok (Host.mk "alice") ∧
      (∀ h2 : Host, h2.host_id = (Host.mk "alice").host_id →
        QuTipBackend.add_host d' h2
          = .error (PyError.duplicateKey (Host.mk "alice").host_id)) ∧
      (∀ h2 : Host, h2.host_id ≠ (Host.mk "alice").host_id → ∀ d'',
        QuTipBackend.add_host d' h2 = .ok d'' →
        SafeDict.get_from_dict d'' (Host.mk "alice").host_id
          = .ok (Host.mk "alice"))) :=
  ⟨rfl, c7_add_host_registers_exactly_once [] (Host.mk "alice") rfl⟩

/-- C8: all `QuTipBackend` objects share the same process-wide state:
constructing a second backend yields `_hosts` and
`_entaglement_qubits` attributes that are the identical singleton
registry instances as the first backend's. -/
theorem c8_backends_share_singleton_registries (g : GlobalState) :
    ((QuTipBackend.construct g).1).hostsRef
      = ((QuTipBackend.construct (QuTipBackend.construct g).2).1).hostsRef ∧
    ((QuTipBackend.construct g).1).entaglementQubitsRef
      = ((QuTipBackend.construct (QuTipBackend.construct g).2).1).entaglementQubitsRef := by
  constructor
  · show (Hosts.get_instance g.hostsClass).1
      = (Hosts.get_instance (Hosts.get_instance g.hostsClass).2).1
    rw [hosts_get_fix]
  · show (EntanglementIDs.get_instance g.entClass).1
      = (EntanglementIDs.get_instance (EntanglementIDs.get_instance g.entClass).2).1
    rw [ent_get_fix]

/-- C9: `start(**config)` and `stop()` never fail and are pure no-ops:
for every configuration and every backend state they return `None` and
leave the host registry, the entanglement registry, and every qubit
unchanged. -/
theorem c9_start_stop_are_noops (config : List (String × String))
    (s : FullState) :
    QuTipBackend.start config s = ((), s) ∧ QuTipBackend.stop s = ((), s) :=
  ⟨rfl, rfl⟩

/-- C10: a newly constructed `QubitCollection` holds the state vector
`[1, 0]`, i.e. the single-qubit pure state with amplitude 1 on basis
state 0 and amplitude 0 on basis state 1, and `add_qubit` is a no-op
for every argument. -/
theorem c10_qubitcollection_initial_ket0_add_qubit_noop :
    QubitCollection.construct = [1, 0] ∧
    QubitCollection.construct.length = 2 ∧
    QubitCollection.construct.getD 0 0 = 1 ∧
    QubitCollection.construct.getD 1 0 = 0 ∧
    (∀ (c : List Rat) (q : Qubit), QubitCollection.add_qubit c q = c) :=
  ⟨rfl, rfl, rfl, rfl, fun _ _ => rfl⟩

end QuNetSim
